import Mathlib

/-!
Shallow embedding of the bee-dashboard postage-stamp purchase form
(`src/pages/stamps/PostageStampAdvancedCreation.tsx`) and the deposit modal
(`src/containers/DepositModal.tsx`).

JavaScript numbers that may be `NaN` are modelled as `Option ℤ` (the code only
ever produces integer values through `parseInt`); `BigNumber` values are
modelled as `Option BigNum` (`none` = NaN), where `BigNum` is the exact
decimal value `num * 10 ^ exp` — the same decimal representation BigNumber.js
uses internally, and faithful to every operation the source performs on these
values (`isNaN`, `isInteger` and comparisons, which depend only on the value).
Fallible conversions (`BigInt(...)`) return `Option ℤ` where `none` means the
conversion throws.  External side-effecting collaborators (the debug API, the
stamp-existence poll, the refresh channels, the snackbar) are modelled by an
explicit event trace.
-/

namespace BeeDashboard

/-- Numeric value of a list of decimal digit characters, most significant
first (the usual left fold used when scanning digits). -/
def digitsVal (ds : List Char) : ℕ :=
  ds.foldl (fun a c => 10 * a + (c.toNat - 48)) 0

/-- Split a character list into its maximal leading run of decimal digits and
the remainder. -/
def splitDigits (cs : List Char) : List Char × List Char :=
  (cs.takeWhile Char.isDigit, cs.dropWhile Char.isDigit)

/-- Whitespace characters recognised by the JavaScript string-trimming steps
of `Number.parseInt` and `BigInt` (the common ASCII subset). -/
def jsWhitespace (c : Char) : Bool :=
  c == ' ' || c == '\t' || c == '\n' || c == '\r'

/-- Model of JavaScript `Number.parseInt(s, 10)`: skip leading whitespace,
accept an optional sign, then read the maximal run of leading decimal digits;
the result is `none` (NaN) when no digit follows. -/
def parseIntJS (s : String) : Option ℤ :=
  let cs := s.toList.dropWhile jsWhitespace
  match cs with
  | '-' :: rest =>
      let (ds, _) := splitDigits rest
      if ds = [] then none else some (-(digitsVal ds : ℤ))
  | '+' :: rest =>
      let (ds, _) := splitDigits rest
      if ds = [] then none else some ((digitsVal ds : ℤ))
  | _ =>
      let (ds, _) := splitDigits cs
      if ds = [] then none else some ((digitsVal ds : ℤ))

/-- Model of JavaScript `BigInt(string)`: whitespace is trimmed, the empty
string yields `0`, an optionally signed all-digit string yields its value, and
everything else throws (`none`).  The `0x`/`0o`/`0b` literal forms accepted by
real `BigInt` are omitted: no claim and no validated input involves them. -/
def bigIntParse (s : String) : Option ℤ :=
  let cs := ((s.toList.dropWhile jsWhitespace).reverse.dropWhile jsWhitespace).reverse
  match cs with
  | [] => some 0
  | '-' :: rest =>
      if rest ≠ [] ∧ rest.all Char.isDigit then some (-(digitsVal rest : ℤ)) else none
  | '+' :: rest =>
      if rest ≠ [] ∧ rest.all Char.isDigit then some ((digitsVal rest : ℤ)) else none
  | _ =>
      if cs.all Char.isDigit then some ((digitsVal cs : ℤ)) else none

/-- The error message V8 produces when `BigInt(s)` fails. -/
def bigIntErrMsg (s : String) : String :=
  "Cannot convert " ++ s ++ " to a BigInt"

/-- An exact decimal number `num * 10 ^ exp`, the value representation of a
(non-NaN) BigNumber.js value. -/
structure BigNum where
  num : ℤ
  exp : ℤ
  deriving DecidableEq

/-- The rational value denoted by a `BigNum`. -/
def BigNum.toRat (q : BigNum) : ℚ :=
  if 0 ≤ q.exp then (((q.num * ((10 ^ q.exp.toNat : ℕ) : ℤ)) : ℤ) : ℚ)
  else (q.num : ℚ) / (((10 ^ (-q.exp).toNat : ℕ) : ℤ) : ℚ)

/-- Whether a `BigNum` denotes an integer (`BigNumber.isInteger()` on a
non-NaN value), decided by integer arithmetic. -/
def BigNum.isInt (q : BigNum) : Bool :=
  if 0 ≤ q.exp then true
  else decide (q.num % ((10 ^ (-q.exp).toNat : ℕ) : ℤ) = 0)

/-- `value ≤ m` for a `BigNum` value and an integer bound, decided by integer
arithmetic. -/
def BigNum.leInt (q : BigNum) (m : ℤ) : Bool :=
  if 0 ≤ q.exp then decide (q.num * ((10 ^ q.exp.toNat : ℕ) : ℤ) ≤ m)
  else decide (q.num ≤ m * ((10 ^ (-q.exp).toNat : ℕ) : ℤ))

/-- `value < m` for a `BigNum` value and an integer bound. -/
def BigNum.ltInt (q : BigNum) (m : ℤ) : Bool :=
  if 0 ≤ q.exp then decide (q.num * ((10 ^ q.exp.toNat : ℕ) : ℤ) < m)
  else decide (q.num < m * ((10 ^ (-q.exp).toNat : ℕ) : ℤ))

/-- `value > m` for a `BigNum` value and an integer bound. -/
def BigNum.gtInt (q : BigNum) (m : ℤ) : Bool :=
  if 0 ≤ q.exp then decide (m < q.num * ((10 ^ q.exp.toNat : ℕ) : ℤ))
  else decide (m * ((10 ^ (-q.exp).toNat : ℕ) : ℤ) < q.num)

/-- Parse the mantissa part of a `BigNumber` literal: `digits`, `digits.`,
`digits.digits` or `.digits` (at least one digit overall), returning the
unsigned coefficient, the number of fraction digits, and the unconsumed
remainder. -/
def parseMantissa (cs : List Char) : Option ((ℕ × ℕ) × List Char) :=
  let (ip, rest) := splitDigits cs
  match rest with
  | '.' :: rest2 =>
      let (fp, rest3) := splitDigits rest2
      if ip = [] ∧ fp = [] then none
      else some ((digitsVal ip * 10 ^ fp.length + digitsVal fp, fp.length), rest3)
  | _ => if ip = [] then none else some ((digitsVal ip, 0), rest)

/-- Parse the optional exponent suffix of a `BigNumber` literal: empty, or
`e`/`E` followed by an optionally signed digit run that must end the string. -/
def parseExponent (cs : List Char) : Option ℤ :=
  match cs with
  | [] => some 0
  | c :: rest =>
      if c == 'e' || c == 'E' then
        match rest with
        | '-' :: r2 =>
            let (ds, r3) := splitDigits r2
            if ds = [] ∨ r3 ≠ [] then none else some (-(digitsVal ds : ℤ))
        | '+' :: r2 =>
            let (ds, r3) := splitDigits r2
            if ds = [] ∨ r3 ≠ [] then none else some ((digitsVal ds : ℤ))
        | _ =>
            let (ds, r3) := splitDigits rest
            if ds = [] ∨ r3 ≠ [] then none else some ((digitsVal ds : ℤ))
      else none

/-- Model of `new BigNumber(s)` for decimal text: an optional sign, a decimal
mantissa and an optional scientific exponent; anything else is NaN (`none`).
The hexadecimal/octal/binary literal forms of BigNumber.js are omitted: no
claim and no validated input involves them. -/
def bigNumberParse (s : String) : Option BigNum :=
  let cs := s.toList
  let signAndRest : ℤ × List Char :=
    match cs with
    | '-' :: r => (-1, r)
    | '+' :: r => (1, r)
    | _ => (1, cs)
  match parseMantissa signAndRest.2 with
  | none => none
  | some ((c, fl), rest) =>
      match parseExponent rest with
      | none => none
      | some e => some ⟨signAndRest.1 * c, e - fl⟩

/-- `BigNumber.isNaN()` on the modelled value. -/
def bigNumIsNaN : Option BigNum → Bool
  | none => true
  | some _ => false

/-- `BigNumber.isInteger()`: false for NaN. -/
def bigNumIsInteger : Option BigNum → Bool
  | none => false
  | some q => q.isInt

/-- `BigNumber.isLessThanOrEqualTo(m)`: comparisons with NaN are false. -/
def bigNumLe (x : Option BigNum) (m : ℤ) : Bool :=
  match x with
  | none => false
  | some q => q.leInt m

/-- `BigNumber.isLessThan(m)`: comparisons with NaN are false. -/
def bigNumLt (x : Option BigNum) (m : ℤ) : Bool :=
  match x with
  | none => false
  | some q => q.ltInt m

/-- `BigNumber.isGreaterThan(m)`: comparisons with NaN are false. -/
def bigNumGt (x : Option BigNum) (m : ℤ) : Bool :=
  match x with
  | none => false
  | some q => q.gtInt m

/-- `validateAmountInput` from `PostageStampAdvancedCreation.tsx`, returning
the pair (amount error string, stored amount input) produced by its
`setAmountError` / `setAmountInput` calls.  The source's
`amountInput.indexOf('.') > -1` test is the membership test for `'.'`. -/
def validateAmountInput (amountInput : String) : String × String :=
  if amountInput = "" then ("Required field", "0")
  else if amountInput.toList.contains '.' then ("Amount must be an integer", "0")
  else
    let amount := bigNumberParse amountInput
    if bigNumIsNaN amount then ("Amount must contain only digits", "0")
    else if bigNumLe amount 0 then ("Amount must be greater than 0", "0")
    else ("", amountInput)

/-- `validateDepthInput` from `PostageStampAdvancedCreation.tsx`, returning
the pair (depth error string, stored depth input) produced by its
`setDepthError` / `setDepthInput` calls. -/
def validateDepthInput (depthInput : String) : String × String :=
  if depthInput = "" then ("Required field", "0")
  else
    let depth := bigNumberParse depthInput
    if ¬ bigNumIsInteger depth then ("Depth must be an integer", "0")
    else if bigNumLt depth 17 then ("Minimal depth is 17", "0")
    else if bigNumGt depth 255 then ("Depth has to be at most 255", "0")
    else ("", depthInput)

/-- The component state read by the submit-button `disabled` expression and
by the derived-value displays: the two stored inputs, the two error strings,
and the in-flight flag. -/
structure FormState where
  depthInput : String
  amountInput : String
  depthError : String
  amountError : String
  submitting : Bool
  deriving DecidableEq

/-- The `disabled` expression of the `SwarmButton`:
`submitting || Boolean(depthError) || Boolean(amountError) || !depthInput ||
!amountInput` (a string is truthy iff non-empty). -/
def submitDisabled (st : FormState) : Bool :=
  st.submitting || !(st.depthError == "") || !(st.amountError == "")
    || (st.depthInput == "") || (st.amountInput == "")

/-- The `PostageBatchOptions` record built by `submit`:
`{ waitForUsable: false, label: labelInput || undefined, immutableFlag: immutable }`. -/
structure PostageOptions where
  waitForUsable : Bool
  label : Option String
  immutableFlag : Bool
  deriving DecidableEq

/-- Observable external effects of one `submit` run: the API calls, the
stamp-existence wait, the stamp-list refresh, the `onFinished` callback, the
`console.error` log and the snackbar notification, in program order. -/
inductive Event where
  | createBatch (amount : String) (depth : Option ℤ) (options : PostageOptions)
  | waitStamp (batchId : String)
  | refreshStamps
  | finished
  | logError (msg : String)
  | notifyError (msg : String)
  deriving DecidableEq

deriving instance DecidableEq for Except

/-- Environment of one `submit` run: the component inputs it closes over,
whether the `beeDebugApi` client is present, and the behaviour of the three
awaited external calls (`createPostageBatch`, `waitUntilStampExists`,
`refresh`), each either succeeding or rejecting with an error message. -/
structure SubmitEnv where
  depthInput : String
  amountInput : String
  labelInput : String
  immutable : Bool
  beeDebugApi : Bool
  createResult : Except String String
  waitResult : Except String Unit
  refreshResult : Except String Unit
  deriving DecidableEq

/-- Outcome of one `submit` run: the ordered event trace and the value of the
`submitting` flag when the run has finished (it starts false, since the
button is only clickable when not submitting). -/
structure SubmitOutcome where
  events : List Event
  submitting : Bool
  deriving DecidableEq

/-- The `options` record `submit` builds:
`{ waitForUsable: false, label: labelInput || undefined, immutableFlag: immutable }`
(`labelInput || undefined` is `undefined` exactly when the label is empty). -/
def submitOptions (env : SubmitEnv) : PostageOptions :=
  ⟨false, if env.labelInput = "" then none else some env.labelInput, env.immutable⟩

/-- The `submit` function of `PostageStampAdvancedCreation.tsx` as a trace
transformer.  Mirrors the source control flow: the two early-return guards
(empty input, missing API client) leave no trace; `BigInt(amountInput)` may
throw; `createPostageBatch` is called with `amount.toString()` and
`Number.parseInt(depthInput)`; any rejection is caught, logged and surfaced
as an `Error: `-prefixed snackbar; `setSubmitting(false)` runs after the
try/catch on every non-early-return path. -/
def submit (env : SubmitEnv) : SubmitOutcome :=
  if env.depthInput = "" ∨ env.amountInput = "" then ⟨[], false⟩
  else if ¬ env.beeDebugApi then ⟨[], false⟩
  else
    match bigIntParse env.amountInput with
    | none =>
        ⟨[.logError (bigIntErrMsg env.amountInput),
          .notifyError ("Error: " ++ bigIntErrMsg env.amountInput)], false⟩
    | some amount =>
        let depth := parseIntJS env.depthInput
        let callEv := Event.createBatch (toString amount) depth (submitOptions env)
        match env.createResult with
        | .error msg =>
            ⟨[callEv, .logError msg, .notifyError ("Error: " ++ msg)], false⟩
        | .ok batchId =>
            match env.waitResult with
            | .error msg =>
                ⟨[callEv, .waitStamp batchId, .logError msg,
                  .notifyError ("Error: " ++ msg)], false⟩
            | .ok _ =>
                match env.refreshResult with
                | .error msg =>
                    ⟨[callEv, .waitStamp batchId, .refreshStamps, .logError msg,
                      .notifyError ("Error: " ++ msg)], false⟩
                | .ok _ =>
                    ⟨[callEv, .waitStamp batchId, .refreshStamps, .finished], false⟩

/-- Outcome of the `DepositModal` `action` callback: the result value (or the
thrown error message), the `depositTokens` calls made, and how many times the
balance refresh ran. -/
structure DepositOutcome where
  result : Except String String
  depositCalls : List String
  refreshCalls : ℕ
  deriving DecidableEq

/-- The `action` of `DepositModal.tsx`: with no API client it throws
`Bee Debug URL is not valid` before any external call; otherwise it calls
`depositTokens(amount.toString())`, refreshes, and returns the transaction
hash (a rejection propagates before the refresh). -/
def depositAction (beeDebugApi : Bool) (depositResult : Except String String)
    (amount : ℤ) : DepositOutcome :=
  if ¬ beeDebugApi then ⟨.error "Bee Debug URL is not valid", [], 0⟩
  else
    match depositResult with
    | .error msg => ⟨.error msg, [toString amount], 0⟩
    | .ok hash => ⟨.ok hash, [toString amount], 1⟩

/-- Modelled from the spec: `bytesForDepth` / `convertDepthToBytes`, the
depth-to-byte-size conversion the source imports from `../../utils` (not
under `src/`); the spec calls it a monotonic function of depth yielding a
`2^depth`-derived byte count (4096 is the chunk size). -/
def convertDepthToBytes (depth : ℕ) : ℕ :=
  4096 * 2 ^ depth

/-- `num.toFixed(0)` for the modelled integer-or-NaN JavaScript number. -/
def toFixed0 : Option ℤ → String
  | none => "NaN"
  | some v => toString v

/-- Whether `chainState && chainState.currentPrice` is truthy: the chain
state is present and its `currentPrice` string is non-empty. -/
def priceAvailable : Option String → Bool
  | none => false
  | some s => s != ""

/-- JavaScript `x <= 0` on a possibly-NaN number: false for NaN. -/
def jsNumLe0 : Option ℤ → Bool
  | none => false
  | some v => decide (v ≤ 0)

/-- JavaScript `isNaN(x)` on the modelled number. -/
def jsIsNaN : Option ℤ → Bool
  | none => true
  | some _ => false

/-- JavaScript `x < m` on a possibly-NaN number: false for NaN. -/
def jsNumLt (x : Option ℤ) (m : ℤ) : Bool :=
  match x with
  | none => false
  | some v => decide (v < m)

/-- JavaScript `x > m` on a possibly-NaN number: false for NaN. -/
def jsNumGt (x : Option ℤ) (m : ℤ) : Bool :=
  match x with
  | none => false
  | some v => decide (m < v)

/-- `getFileSize(depth)`: `-` for NaN depth or depth outside `[17, 255]`,
otherwise `~` followed by the human-readable rendering of the byte count;
the rendering (`getHumanReadableFileSize`, outside `src/`) is a parameter. -/
def getFileSize (render : ℕ → String) (depth : Option ℤ) : String :=
  match depth with
  | none => "-"
  | some d => if d < 17 ∨ 255 < d then "-" else "~" ++ render (convertDepthToBytes d.toNat)

/-- `getTtl(amount)`: `-` when the amount is `<= 0` or no chain price is
available, otherwise the rendered duration plus the price-per-block suffix.
`render amount pricePerBlock` stands for
`secondsToTimeString(convertAmountToSeconds(amount, pricePerBlock))`, whose
two utilities live outside `src/`. -/
def getTtl (render : Option ℤ → Option ℤ → String) (chain : Option String)
    (amount : Option ℤ) : String :=
  if jsNumLe0 amount || !(priceAvailable chain) then "-"
  else
    let pricePerBlock := match chain with
      | some s => parseIntJS s
      | none => none
    render amount pricePerBlock ++ " (with price of " ++ toFixed0 pricePerBlock
      ++ " per block)"

/-- `getPrice(depth, amount)`: `-` when the amount is `<= 0`, the depth is
NaN, or the depth is outside `[17, 255]`; otherwise the rendered price with
the `xBZZ` suffix.  `render depth amount` stands for
`calculateStampPrice(depth, amount).toSignificantDigits()` (utility outside
`src/`); `amount` is the `BigInt`, which exists whenever this runs. -/
def getPrice (render : Option ℤ → ℤ → String) (depth : Option ℤ) (amount : ℤ) : String :=
  if decide (amount ≤ 0) || jsIsNaN depth || jsNumLt depth 17 || jsNumGt depth 255 then "-"
  else render depth amount ++ " xBZZ"

/-- The corresponding-file-size cell:
`!depthError && depthInput ? getFileSize(parseInt(depthInput, 10)) : '-'`. -/
def fileSizeDisplay (render : ℕ → String) (st : FormState) : String :=
  if st.depthError = "" ∧ st.depthInput ≠ "" then getFileSize render (parseIntJS st.depthInput)
  else "-"

/-- The TTL cell:
`!amountError && amountInput ? getTtl(Number.parseInt(amountInput, 10)) : '-'`. -/
def ttlDisplay (render : Option ℤ → Option ℤ → String) (st : FormState)
    (chain : Option String) : String :=
  if st.amountError = "" ∧ st.amountInput ≠ "" then
    getTtl render chain (parseIntJS st.amountInput)
  else "-"

/-- The indicative-price cell:
`!amountError && !depthError && amountInput && depthInput
  ? getPrice(parseInt(depthInput, 10), BigInt(amountInput)) : '-'`.
`none` means the render expression itself throws, because
`BigInt(amountInput)` is evaluated inside it. -/
def priceDisplay (render : Option ℤ → ℤ → String) (st : FormState) : Option String :=
  if st.amountError = "" ∧ st.depthError = "" ∧ st.amountInput ≠ "" ∧ st.depthInput ≠ "" then
    match bigIntParse st.amountInput with
    | none => none
    | some a => some (getPrice render (parseIntJS st.depthInput) a)
  else some "-"

/-! ### Bridge lemmas: the integer-arithmetic comparisons of `BigNum` agree
with the rational value it denotes. -/

lemma BigNum.cast_pow_pos (j : ℕ) : (0 : ℚ) < (((10 ^ j : ℕ) : ℤ) : ℚ) := by
  have h : (0 : ℕ) < 10 ^ j := pow_pos (by norm_num) j
  exact_mod_cast h

lemma BigNum.leInt_iff (q : BigNum) (m : ℤ) :
    q.leInt m = true ↔ q.toRat ≤ (m : ℚ) := by
  unfold BigNum.leInt BigNum.toRat
  split
  · rw [decide_eq_true_iff]
    exact_mod_cast Iff.rfl
  · rw [decide_eq_true_iff, div_le_iff₀ (BigNum.cast_pow_pos _)]
    exact_mod_cast Iff.rfl

lemma BigNum.ltInt_iff (q : BigNum) (m : ℤ) :
    q.ltInt m = true ↔ q.toRat < (m : ℚ) := by
  unfold BigNum.ltInt BigNum.toRat
  split
  · rw [decide_eq_true_iff]
    exact_mod_cast Iff.rfl
  · rw [decide_eq_true_iff, div_lt_iff₀ (BigNum.cast_pow_pos _)]
    exact_mod_cast Iff.rfl

lemma BigNum.gtInt_iff (q : BigNum) (m : ℤ) :
    q.gtInt m = true ↔ (m : ℚ) < q.toRat := by
  unfold BigNum.gtInt BigNum.toRat
  split
  · rw [decide_eq_true_iff]
    exact_mod_cast Iff.rfl
  · rw [decide_eq_true_iff, lt_div_iff₀ (BigNum.cast_pow_pos _)]
    exact_mod_cast Iff.rfl

lemma BigNum.isInt_iff (q : BigNum) :
    q.isInt = true ↔ ∃ z : ℤ, q.toRat = (z : ℚ) := by
  unfold BigNum.isInt BigNum.toRat
  split
  · simp only [true_iff]
    exact ⟨_, rfl⟩
  · rw [decide_eq_true_iff]
    constructor
    · intro h
      obtain ⟨t, ht⟩ := Int.dvd_of_emod_eq_zero h
      refine ⟨t, ?_⟩
      rw [ht]
      push_cast
      exact mul_div_cancel_left₀ _ (pow_ne_zero _ (by norm_num))
    · rintro ⟨z, hz⟩
      rw [div_eq_iff (ne_of_gt (BigNum.cast_pow_pos _))] at hz
      have hz' : q.num = z * ((10 ^ (-q.exp).toNat : ℕ) : ℤ) := by exact_mod_cast hz
      rw [hz']
      exact Int.mul_emod_left _ _

lemma not_int_of_isInt_false (q : BigNum) (h : q.isInt = false) :
    ∀ z : ℤ, q.toRat ≠ (z : ℚ) := by
  intro z hz
  have ht : q.isInt = true := (BigNum.isInt_iff q).2 ⟨z, hz⟩
  rw [ht] at h
  cases h

lemma bigNumberParse_empty : bigNumberParse "" = none := by decide

lemma append_ne_dash (a b : String) (hb : 2 ≤ b.length) : a ++ b ≠ "-" := by
  intro h
  have hl := congrArg String.length h
  rw [String.length_append] at hl
  have h1 : ("-" : String).length = 1 := rfl
  rw [h1] at hl
  omega

lemma validateAmount_stored (s : String) :
    (validateAmountInput s).2 ≠ "" ∧
    ((validateAmountInput s).2 = "0" ↔ (validateAmountInput s).1 ≠ "") ∧
    ((validateAmountInput s).1 = "" → (validateAmountInput s).2 = s) := by
  simp only [validateAmountInput]
  split_ifs with h1 h2 h3 h4
  · exact ⟨by decide, by decide, fun h => absurd h (by decide)⟩
  · exact ⟨by decide, by decide, fun h => absurd h (by decide)⟩
  · exact ⟨by decide, by decide, fun h => absurd h (by decide)⟩
  · exact ⟨by decide, by decide, fun h => absurd h (by decide)⟩
  · refine ⟨h1, ⟨fun hs0 => ?_, fun h => absurd rfl h⟩, fun _ => rfl⟩
    have hs : s = "0" := hs0
    rw [hs] at h4
    exact absurd (by decide) h4

lemma validateDepth_stored (s : String) :
    (validateDepthInput s).2 ≠ "" ∧
    ((validateDepthInput s).2 = "0" ↔ (validateDepthInput s).1 ≠ "") ∧
    ((validateDepthInput s).1 = "" → (validateDepthInput s).2 = s) := by
  simp only [validateDepthInput]
  split_ifs with h1 h2 h3 h4
  · exact ⟨by decide, by decide, fun h => absurd h (by decide)⟩
  · exact ⟨by decide, by decide, fun h => absurd h (by decide)⟩
  · exact ⟨by decide, by decide, fun h => absurd h (by decide)⟩
  · refine ⟨h1, ⟨fun hs0 => ?_, fun h => absurd rfl h⟩, fun _ => rfl⟩
    have hs : s = "0" := hs0
    rw [hs] at h3
    exact absurd (by decide) h3
  · exact ⟨by decide, by decide, fun h => absurd h (by decide)⟩

/-! ### Claim theorems -/

/-- C1: in a successful submit run (non-empty inputs, API client present,
both parses succeed, all three awaited calls resolve), `createPostageBatch`
is called exactly once, with the stringified `BigInt` of the amount input and
the integer-parsed depth, then `waitUntilStampExists` runs on the returned
batch id, then the stamp-list `refresh` runs exactly once, then `onFinished`
runs exactly once, and the `submitting` flag is false at the end. -/
theorem submit_success_trace (env : SubmitEnv) (amount depth : ℤ) (batchId : String)
    (hd : env.depthInput ≠ "") (ha : env.amountInput ≠ "")
    (hapi : env.beeDebugApi = true)
    (hamt : bigIntParse env.amountInput = some amount)
    (hdep : parseIntJS env.depthInput = some depth)
    (hc : env.createResult = .ok batchId)
    (hw : env.waitResult = .ok ())
    (hr : env.refreshResult = .ok ()) :
    submit env =
      ⟨[.createBatch (toString amount) (some depth) (submitOptions env),
        .waitStamp batchId, .refreshStamps, .finished], false⟩ := by
  simp [submit, hd, ha, hapi, hamt, hdep, hc, hw, hr]

/-- Closed instance of `submit_success_trace` at a concrete environment. -/
theorem submit_success_trace_witness :
    submit ⟨"20", "100", "", false, true, .ok "b1", .ok (), .ok ()⟩ =
      ⟨[.createBatch "100" (some 20) ⟨false, none, false⟩,
        .waitStamp "b1", .refreshStamps, .finished], false⟩ :=
  submit_success_trace ⟨"20", "100", "", false, true, .ok "b1", .ok (), .ok ()⟩
    100 20 "b1" (by decide) (by decide) rfl (by decide) (by decide) rfl rfl rfl

/-- C2: when the batch-creation call or the confirmation wait rejects, the
exception is caught, logged, and surfaced as an `Error: `-prefixed snackbar
containing the message; the `submitting` flag is false at the end, no
stamp-list refresh and no `onFinished` call happen, and the trace stops at
the failing step. -/
theorem submit_failure_trace (env : SubmitEnv) (amount : ℤ) (msg : String)
    (hd : env.depthInput ≠ "") (ha : env.amountInput ≠ "")
    (hapi : env.beeDebugApi = true)
    (hamt : bigIntParse env.amountInput = some amount) :
    (env.createResult = .error msg →
      submit env =
        ⟨[.createBatch (toString amount) (parseIntJS env.depthInput) (submitOptions env),
          .logError msg, .notifyError ("Error: " ++ msg)], false⟩ ∧
      Event.refreshStamps ∉ (submit env).events ∧
      Event.finished ∉ (submit env).events) ∧
    (∀ batchId, env.createResult = .ok batchId → env.waitResult = .error msg →
      submit env =
        ⟨[.createBatch (toString amount) (parseIntJS env.depthInput) (submitOptions env),
          .waitStamp batchId, .logError msg, .notifyError ("Error: " ++ msg)], false⟩ ∧
      Event.refreshStamps ∉ (submit env).events ∧
      Event.finished ∉ (submit env).events) := by
  constructor
  · intro hc
    have hs : submit env =
        ⟨[.createBatch (toString amount) (parseIntJS env.depthInput) (submitOptions env),
          .logError msg, .notifyError ("Error: " ++ msg)], false⟩ := by
      simp [submit, hd, ha, hapi, hamt, hc]
    refine ⟨hs, ?_, ?_⟩ <;> simp [hs]
  · intro batchId hc hw
    have hs : submit env =
        ⟨[.createBatch (toString amount) (parseIntJS env.depthInput) (submitOptions env),
          .waitStamp batchId, .logError msg, .notifyError ("Error: " ++ msg)], false⟩ := by
      simp [submit, hd, ha, hapi, hamt, hc, hw]
    refine ⟨hs, ?_, ?_⟩ <;> simp [hs]

/-- Closed instance of `submit_failure_trace`: a rejected creation call and a
rejected confirmation wait, both at concrete environments. -/
theorem submit_failure_trace_witness :
    (submit ⟨"20", "100", "", false, true, .error "boom", .ok (), .ok ()⟩ =
      ⟨[.createBatch "100" (some 20) ⟨false, none, false⟩,
        .logError "boom", .notifyError "Error: boom"], false⟩) ∧
    (submit ⟨"20", "100", "", false, true, .ok "b1", .error "late", .ok ()⟩ =
      ⟨[.createBatch "100" (some 20) ⟨false, none, false⟩,
        .waitStamp "b1", .logError "late", .notifyError "Error: late"], false⟩) :=
  ⟨((submit_failure_trace ⟨"20", "100", "", false, true, .error "boom", .ok (), .ok ()⟩
      100 "boom" (by decide) (by decide) rfl (by decide)).1 rfl).1,
   ((submit_failure_trace ⟨"20", "100", "", false, true, .ok "b1", .error "late", .ok ()⟩
      100 "late" (by decide) (by decide) rfl (by decide)).2 "b1" rfl rfl).1⟩

/-- C3: the submit button's `disabled` expression is true exactly when a
submission is in flight, a depth or amount validation error is present, or a
stored input is empty — so no submission is permitted in any of those
states. -/
theorem submitDisabled_iff (st : FormState) :
    submitDisabled st = true ↔
      st.submitting = true ∨ st.depthError ≠ "" ∨ st.amountError ≠ ""
        ∨ st.depthInput = "" ∨ st.amountInput = "" := by
  simp [submitDisabled]
  tauto

/-- C7: with the API client absent, the deposit action throws the
configuration error `Bee Debug URL is not valid` before any external call,
while the postage-purchase submit silently returns with no trace at all. -/
theorem missing_api_client_behaviour (env : SubmitEnv)
    (r : Except String String) (amount : ℤ)
    (h : env.beeDebugApi = false) :
    depositAction false r amount = ⟨.error "Bee Debug URL is not valid", [], 0⟩ ∧
    submit env = ⟨[], false⟩ := by
  refine ⟨by simp [depositAction], ?_⟩
  unfold submit
  rw [h]
  split
  · rfl
  · simp

/-- Closed instance of `missing_api_client_behaviour` at concrete inputs. -/
theorem missing_api_client_behaviour_witness :
    depositAction false (.ok "hash") 5 = ⟨.error "Bee Debug URL is not valid", [], 0⟩ ∧
    submit ⟨"20", "100", "", false, false, .ok "b1", .ok (), .ok ()⟩ = ⟨[], false⟩ :=
  missing_api_client_behaviour ⟨"20", "100", "", false, false, .ok "b1", .ok (), .ok ()⟩
    (.ok "hash") 5 rfl

/-- C9: the amount text `1e2` passes amount validation (no decimal point,
parses as the positive value 100), yet in `submit` the `BigInt` conversion of
the stored input throws, so the run fails with a caught operational error —
error logged, snackbar shown with the conversion message, `submitting` false —
and `createPostageBatch` is never called. -/
theorem scientific_amount_submit_throws :
    validateAmountInput "1e2" = ("", "1e2") ∧
    bigNumberParse "1e2" = some ⟨1, 2⟩ ∧
    submit ⟨"20", "1e2", "", false, true, .ok "b1", .ok (), .ok ()⟩ =
      ⟨[.logError "Cannot convert 1e2 to a BigInt",
        .notifyError "Error: Cannot convert 1e2 to a BigInt"], false⟩ ∧
    (∀ a d o, Event.createBatch a d o ∉
      (submit ⟨"20", "1e2", "", false, true, .ok "b1", .ok (), .ok ()⟩).events) := by
  refine ⟨by decide, by decide, by decide, ?_⟩
  intro a d o h
  rw [show submit ⟨"20", "1e2", "", false, true, .ok "b1", .ok (), .ok ()⟩ =
      ⟨[.logError "Cannot convert 1e2 to a BigInt",
        .notifyError "Error: Cannot convert 1e2 to a BigInt"], false⟩ from by decide] at h
  simp at h

/-- C4: amount validation — text containing a decimal point sets
`Amount must be an integer`; text whose parsed value is at most 0 sets
`Amount must be greater than 0`; non-numeric text sets the digits error;
empty text sets the required-field error; every failing case stores `0`;
dot-free text parsing to a positive value clears the error and stores the
literal input. -/
theorem amount_validation_cases :
    validateAmountInput "" = ("Required field", "0") ∧
    (∀ s : String, s.toList.contains '.' = true →
      validateAmountInput s = ("Amount must be an integer", "0")) ∧
    (∀ (s : String) (q : BigNum), s.toList.contains '.' = false →
      bigNumberParse s = some q → q.toRat ≤ 0 →
      validateAmountInput s = ("Amount must be greater than 0", "0")) ∧
    (∀ s : String, s ≠ "" → s.toList.contains '.' = false → bigNumberParse s = none →
      validateAmountInput s = ("Amount must contain only digits", "0")) ∧
    (∀ (s : String) (q : BigNum), s.toList.contains '.' = false →
      bigNumberParse s = some q → 0 < q.toRat →
      validateAmountInput s = ("", s)) := by
  refine ⟨by decide, ?_, ?_, ?_, ?_⟩
  · intro s hdot
    have hne : s ≠ "" := by rintro rfl; exact absurd hdot (by decide)
    unfold validateAmountInput
    rw [if_neg hne, if_pos hdot]
  · intro s q hdot hq hle
    have hne : s ≠ "" := fun h => by rw [h, bigNumberParse_empty] at hq; cases hq
    have hleB : BigNum.leInt q 0 = true := (BigNum.leInt_iff q 0).2 (by exact_mod_cast hle)
    have hdot2 : '.' ∉ s.data := by simpa using hdot
    simp [validateAmountInput, hne, hdot2, hq, bigNumIsNaN, bigNumLe, hleB]
  · intro s hne hdot hq
    have hdot2 : '.' ∉ s.data := by simpa using hdot
    simp [validateAmountInput, hne, hdot2, hq, bigNumIsNaN]
  · intro s q hdot hq hpos
    have hne : s ≠ "" := fun h => by rw [h, bigNumberParse_empty] at hq; cases hq
    have hleB : BigNum.leInt q 0 = false := by
      rw [← Bool.not_eq_true]
      intro h
      exact absurd ((BigNum.leInt_iff q 0).1 h) (not_le.2 (by exact_mod_cast hpos))
    have hdot2 : '.' ∉ s.data := by simpa using hdot
    simp [validateAmountInput, hne, hdot2, hq, bigNumIsNaN, bigNumLe, hleB]

/-- Closed instances of `amount_validation_cases` at the spec's scenario
inputs, hypotheses discharged by evaluation. -/
theorem amount_validation_cases_witness :
    validateAmountInput "" = ("Required field", "0") ∧
    validateAmountInput "10.5" = ("Amount must be an integer", "0") ∧
    validateAmountInput "0" = ("Amount must be greater than 0", "0") ∧
    validateAmountInput "abc" = ("Amount must contain only digits", "0") ∧
    validateAmountInput "100" = ("", "100") :=
  ⟨amount_validation_cases.1,
   amount_validation_cases.2.1 "10.5" (by decide),
   amount_validation_cases.2.2.1 "0" ⟨0, 0⟩ (by decide) (by decide) (by decide),
   amount_validation_cases.2.2.2.1 "abc" (by decide) (by decide) (by decide),
   amount_validation_cases.2.2.2.2 "100" ⟨100, 0⟩ (by decide) (by decide) (by decide)⟩

/-- C5: depth validation — an integer-valued parse below 17 sets
`Minimal depth is 17`; above 255 sets `Depth has to be at most 255`;
non-integer (including non-numeric) input sets `Depth must be an integer`;
empty input sets the required-field error; every failing case stores `0`;
an integer in `[17, 255]` clears the error and stores the literal input. -/
theorem depth_validation_cases :
    validateDepthInput "" = ("Required field", "0") ∧
    (∀ s : String, s ≠ "" →
      (bigNumberParse s = none ∨
        ∃ q, bigNumberParse s = some q ∧ ∀ z : ℤ, q.toRat ≠ (z : ℚ)) →
      validateDepthInput s = ("Depth must be an integer", "0")) ∧
    (∀ (s : String) (q : BigNum) (z : ℤ), bigNumberParse s = some q →
      q.toRat = (z : ℚ) → z < 17 →
      validateDepthInput s = ("Minimal depth is 17", "0")) ∧
    (∀ (s : String) (q : BigNum) (z : ℤ), bigNumberParse s = some q →
      q.toRat = (z : ℚ) → 255 < z →
      validateDepthInput s = ("Depth has to be at most 255", "0")) ∧
    (∀ (s : String) (q : BigNum) (z : ℤ), bigNumberParse s = some q →
      q.toRat = (z : ℚ) → 17 ≤ z → z ≤ 255 →
      validateDepthInput s = ("", s)) := by
  refine ⟨by decide, ?_, ?_, ?_, ?_⟩
  · intro s hne hcase
    rcases hcase with hq | ⟨q, hq, hni⟩
    · simp [validateDepthInput, hne, hq, bigNumIsInteger]
    · have hint : BigNum.isInt q = false := by
        rw [← Bool.not_eq_true]
        intro h
        obtain ⟨z, hz⟩ := (BigNum.isInt_iff q).1 h
        exact hni z hz
      simp [validateDepthInput, hne, hq, bigNumIsInteger, hint]
  · intro s q z hq hz hlt
    have hne : s ≠ "" := fun h => by rw [h, bigNumberParse_empty] at hq; cases hq
    have hint : BigNum.isInt q = true := (BigNum.isInt_iff q).2 ⟨z, hz⟩
    have hltB : BigNum.ltInt q 17 = true :=
      (BigNum.ltInt_iff q 17).2 (by rw [hz]; exact_mod_cast hlt)
    simp [validateDepthInput, hne, hq, bigNumIsInteger, bigNumLt, hint, hltB]
  · intro s q z hq hz hgt
    have hne : s ≠ "" := fun h => by rw [h, bigNumberParse_empty] at hq; cases hq
    have hint : BigNum.isInt q = true := (BigNum.isInt_iff q).2 ⟨z, hz⟩
    have hltB : BigNum.ltInt q 17 = false := by
      rw [← Bool.not_eq_true]
      intro h
      have h17 : q.toRat < ((17 : ℤ) : ℚ) := (BigNum.ltInt_iff q 17).1 h
      rw [hz] at h17
      have : z < 17 := by exact_mod_cast h17
      omega
    have hgtB : BigNum.gtInt q 255 = true :=
      (BigNum.gtInt_iff q 255).2 (by rw [hz]; exact_mod_cast hgt)
    simp [validateDepthInput, hne, hq, bigNumIsInteger, bigNumLt, bigNumGt, hint, hltB, hgtB]
  · intro s q z hq hz h17 h255
    have hne : s ≠ "" := fun h => by rw [h, bigNumberParse_empty] at hq; cases hq
    have hint : BigNum.isInt q = true := (BigNum.isInt_iff q).2 ⟨z, hz⟩
    have hltB : BigNum.ltInt q 17 = false := by
      rw [← Bool.not_eq_true]
      intro h
      have hc : q.toRat < ((17 : ℤ) : ℚ) := (BigNum.ltInt_iff q 17).1 h
      rw [hz] at hc
      have : z < 17 := by exact_mod_cast hc
      omega
    have hgtB : BigNum.gtInt q 255 = false := by
      rw [← Bool.not_eq_true]
      intro h
      have hc : ((255 : ℤ) : ℚ) < q.toRat := (BigNum.gtInt_iff q 255).1 h
      rw [hz] at hc
      have : 255 < z := by exact_mod_cast hc
      omega
    simp [validateDepthInput, hne, hq, bigNumIsInteger, bigNumLt, bigNumGt, hint, hltB, hgtB]

/-- Closed instances of `depth_validation_cases` at the spec's scenario
inputs, hypotheses discharged by evaluation. -/
theorem depth_validation_cases_witness :
    validateDepthInput "" = ("Required field", "0") ∧
    validateDepthInput "abc" = ("Depth must be an integer", "0") ∧
    validateDepthInput "10.5" = ("Depth must be an integer", "0") ∧
    validateDepthInput "16" = ("Minimal depth is 17", "0") ∧
    validateDepthInput "256" = ("Depth has to be at most 255", "0") ∧
    validateDepthInput "20" = ("", "20") :=
  ⟨depth_validation_cases.1,
   depth_validation_cases.2.1 "abc" (by decide) (Or.inl (by decide)),
   depth_validation_cases.2.1 "10.5" (by decide)
     (Or.inr ⟨⟨105, -1⟩, by decide, not_int_of_isInt_false ⟨105, -1⟩ (by decide)⟩),
   depth_validation_cases.2.2.1 "16" ⟨16, 0⟩ 16 (by decide) (by decide) (by decide),
   depth_validation_cases.2.2.2.1 "256" ⟨256, 0⟩ 256 (by decide) (by decide) (by decide),
   depth_validation_cases.2.2.2.2 "20" ⟨20, 0⟩ 20 (by decide) (by decide) (by decide) (by decide)⟩

/-- C10 (amended): after any validation call the stored input is never
empty; it equals `0` exactly when the error is non-empty; and it equals the
literal input whenever the error is empty (for the input `0` itself the
stored value equals the literal input even though the error is non-empty, so
the converse of that last part does not hold). -/
theorem stored_input_invariant (s : String) :
    (validateAmountInput s).2 ≠ "" ∧
    ((validateAmountInput s).2 = "0" ↔ (validateAmountInput s).1 ≠ "") ∧
    ((validateAmountInput s).1 = "" → (validateAmountInput s).2 = s) ∧
    (validateDepthInput s).2 ≠ "" ∧
    ((validateDepthInput s).2 = "0" ↔ (validateDepthInput s).1 ≠ "") ∧
    ((validateDepthInput s).1 = "" → (validateDepthInput s).2 = s) :=
  ⟨(validateAmount_stored s).1, (validateAmount_stored s).2.1, (validateAmount_stored s).2.2,
   (validateDepth_stored s).1, (validateDepth_stored s).2.1, (validateDepth_stored s).2.2⟩

/-- Closed instance of `stored_input_invariant`, antecedents discharged at
concrete inputs. -/
theorem stored_input_invariant_witness :
    (validateAmountInput "5").2 = "5" ∧ (validateDepthInput "20").2 = "20" :=
  ⟨(stored_input_invariant "5").2.2.1 (by decide),
   (stored_input_invariant "20").2.2.2.2.2 (by decide)⟩

/-- C10 as stated is false at the input `0`: the stored amount equals the
literal input (`0`) while the error string is non-empty, refuting the
claimed equivalence between storing the literal input and having no
error. -/
theorem stored_input_literal_counterexample :
    ¬ (((validateAmountInput "0").2 = "0") ↔ ((validateAmountInput "0").1 = "")) := by
  decide

/-- C6 as stated is false: with an invalid depth (`16` was validated, so the
depth error is set and the stored depth is `0`) but a valid amount, the TTL
cell still shows a computed value rather than `-`, because its guard reads
only the amount state; and with the validated amount `1e2` the price cell's
render expression itself throws on `BigInt(amountInput)` instead of showing
a value. -/
theorem display_claim_counterexample :
    ttlDisplay (fun _ _ => "") ⟨"0", "100", "Minimal depth is 17", "", false⟩
      (some "24000") ≠ "-" ∧
    priceDisplay (fun _ _ => "") ⟨"20", "1e2", "", "", false⟩ = none := by
  decide

/-- C6 (amended): the indicative-price cell shows `-` whenever either field
has a validation error or is empty, and shows the computed price (with the
`xBZZ` suffix, hence not `-` and not a thrown render) when both fields are
valid and the stored amount converts to a positive `BigInt` with the depth
parsing into `[17, 255]`; the TTL cell ignores the depth state entirely: it
shows `-` exactly when the amount is errored or empty, parses non-positive,
or no chain price is available, and otherwise shows the rendered duration
with the price-per-block suffix (hence not `-`). -/
theorem display_placeholder_cases :
    (∀ (render : Option ℤ → ℤ → String) (st : FormState),
      st.amountError ≠ "" ∨ st.depthError ≠ "" ∨ st.amountInput = "" ∨ st.depthInput = "" →
      priceDisplay render st = some "-") ∧
    (∀ (render : Option ℤ → ℤ → String) (st : FormState) (a d : ℤ),
      st.amountError = "" → st.depthError = "" →
      st.amountInput ≠ "" → st.depthInput ≠ "" →
      bigIntParse st.amountInput = some a → 0 < a →
      parseIntJS st.depthInput = some d → 17 ≤ d → d ≤ 255 →
      priceDisplay render st = some (render (some d) a ++ " xBZZ") ∧
      priceDisplay render st ≠ some "-" ∧ priceDisplay render st ≠ none) ∧
    (∀ (render : Option ℤ → Option ℤ → String) (st : FormState) (chain : Option String),
      st.amountError ≠ "" ∨ st.amountInput = "" ∨
        jsNumLe0 (parseIntJS st.amountInput) = true ∨ priceAvailable chain = false →
      ttlDisplay render st chain = "-") ∧
    (∀ (render : Option ℤ → Option ℤ → String) (st : FormState) (price : String) (p : ℤ),
      st.amountError = "" → st.amountInput ≠ "" →
      parseIntJS st.amountInput = some p → 0 < p → price ≠ "" →
      ttlDisplay render st (some price) =
        render (some p) (parseIntJS price) ++ " (with price of "
          ++ toFixed0 (parseIntJS price) ++ " per block)" ∧
      ttlDisplay render st (some price) ≠ "-") := by
  refine ⟨?_, ?_, ?_, ?_⟩
  · intro render st h
    unfold priceDisplay
    rw [if_neg (by tauto)]
  · intro render st a d h1 h2 h3 h4 hbig ha0 hdep h17 h255
    have g1 : decide (a ≤ 0) = false := decide_eq_false (not_le.2 ha0)
    have g2 : jsNumLt (some d) 17 = false := by simp [jsNumLt]; omega
    have g3 : jsNumGt (some d) 255 = false := by simp [jsNumGt]; omega
    have heq : priceDisplay render st = some (render (some d) a ++ " xBZZ") := by
      unfold priceDisplay
      rw [if_pos ⟨h1, h2, h3, h4⟩, hbig]
      simp [getPrice, hdep, jsIsNaN, g1, g2, g3]
    refine ⟨heq, ?_, ?_⟩
    · rw [heq]
      intro hcontra
      exact append_ne_dash _ _ (by decide) (Option.some.inj hcontra)
    · rw [heq]
      exact Option.some_ne_none _
  · intro render st chain h
    rcases h with h | h | h | h
    · simp [ttlDisplay, h]
    · simp [ttlDisplay, h]
    · unfold ttlDisplay
      split_ifs with hg
      · simp [getTtl, h]
      · rfl
    · unfold ttlDisplay
      split_ifs with hg
      · simp [getTtl, h]
      · rfl
  · intro render st price p h1 h2 hp hpos hpr
    have hle : jsNumLe0 (parseIntJS st.amountInput) = false := by
      rw [hp]; simp [jsNumLe0]; omega
    have hav : priceAvailable (some price) = true := by
      simp [priceAvailable]
      exact hpr
    have heq : ttlDisplay render st (some price) =
        render (some p) (parseIntJS price) ++ " (with price of "
          ++ toFixed0 (parseIntJS price) ++ " per block)" := by
      unfold ttlDisplay
      rw [if_pos ⟨h1, h2⟩]
      unfold getTtl
      rw [hle, hav, hp]
      simp
    exact ⟨heq, heq ▸ append_ne_dash _ _ (by decide)⟩

/-- Closed instances of `display_placeholder_cases` at concrete states:
an empty depth field, a fully valid pair, an errored amount, and a valid
amount with an available chain price. -/
theorem display_placeholder_cases_witness :
    priceDisplay (fun _ _ => "P") ⟨"", "100", "", "", false⟩ = some "-" ∧
    priceDisplay (fun _ _ => "P") ⟨"20", "100", "", "", false⟩ = some "P xBZZ" ∧
    ttlDisplay (fun _ _ => "T") ⟨"20", "100", "", "Required field", false⟩
      (some "24000") = "-" ∧
    ttlDisplay (fun _ _ => "T") ⟨"20", "100", "", "", false⟩ (some "24000") =
      "T (with price of 24000 per block)" :=
  ⟨display_placeholder_cases.1 (fun _ _ => "P") ⟨"", "100", "", "", false⟩
      (Or.inr (Or.inr (Or.inr rfl))),
   (display_placeholder_cases.2.1 (fun _ _ => "P") ⟨"20", "100", "", "", false⟩ 100 20
      rfl rfl (by decide) (by decide) (by decide) (by decide) (by decide) (by decide)
      (by decide)).1,
   display_placeholder_cases.2.2.1 (fun _ _ => "T")
      ⟨"20", "100", "", "Required field", false⟩ (some "24000") (Or.inl (by decide)),
   (display_placeholder_cases.2.2.2 (fun _ _ => "T") ⟨"20", "100", "", "", false⟩
      "24000" 100 rfl (by decide) (by decide) (by decide) (by decide)).1⟩

/-- C8: for depths `d1 ≤ d2` in `[17, 255]` the file-size cell for `d2` is
at least that for `d1`, for any monotone human-readable rendering and any
order respected by it (the modelled byte conversion `4096 * 2 ^ depth` is
monotone); for a NaN depth or a depth outside `[17, 255]` the cell shows
`-`. -/
theorem fileSize_monotone :
    (∀ (render : ℕ → String) (le : String → String → Prop),
      (∀ m n : ℕ, m ≤ n → le ("~" ++ render m) ("~" ++ render n)) →
      ∀ d1 d2 : ℤ, 17 ≤ d1 → d1 ≤ d2 → d2 ≤ 255 →
        le (getFileSize render (some d1)) (getFileSize render (some d2))) ∧
    (∀ (render : ℕ → String) (d : ℤ), d < 17 ∨ 255 < d →
      getFileSize render (some d) = "-") ∧
    (∀ render : ℕ → String, getFileSize render none = "-") := by
  refine ⟨?_, ?_, fun render => rfl⟩
  · intro render le hmono d1 d2 h17 h12 h255
    have h1 : ¬(d1 < 17 ∨ 255 < d1) := by omega
    have h2 : ¬(d2 < 17 ∨ 255 < d2) := by omega
    simp only [getFileSize, if_neg h1, if_neg h2]
    apply hmono
    unfold convertDepthToBytes
    have ht : d1.toNat ≤ d2.toNat := Int.toNat_le_toNat h12
    exact Nat.mul_le_mul_left _ (Nat.pow_le_pow_right (by norm_num) ht)
  · intro render d hd
    simp [getFileSize, if_pos hd]

/-- Closed instance of `fileSize_monotone` with the length order on the
rendered strings, at depths 17 ≤ 20 and at the out-of-range depth 16. -/
theorem fileSize_monotone_witness :
    (getFileSize (fun _ => "x") (some 17)).length ≤
      (getFileSize (fun _ => "x") (some 20)).length ∧
    getFileSize (fun _ => "x") (some 16) = "-" ∧
    getFileSize (fun _ => "x") none = "-" :=
  ⟨fileSize_monotone.1 (fun _ => "x") (fun a b => a.length ≤ b.length)
      (fun _ _ _ => le_refl _) 17 20 (by decide) (by decide) (by decide),
   fileSize_monotone.2.1 (fun _ => "x") 16 (by decide),
   fileSize_monotone.2.2 (fun _ => "x")⟩

end BeeDashboard
